import Mathlib

/-
Verification of the nutrition backend (src/main.py, src/schemas.py).

Modelling choices:
* Python floats are modelled as exact rationals (ℚ).  The spec itself states
  that exact floating-point tie-breaking is "not a hard contract"; all the
  claimed properties are about the algorithm, which is exact over ℚ.
* Python's built-in round(v, 2) rounds half to even; roundHalfEven below
  implements that on ℚ.
* The document store is modelled as an explicit list of documents threaded
  through the handlers; create_document appends one document and returns a
  fresh identifier.  Handlers that can raise HTTPException return Except.
-/

/-- Round-half-to-even on rationals, mirroring Python's built-in round
applied to the exact value: the nearest integer, with ties going to the even
integer. -/
def roundHalfEven (x : ℚ) : ℤ :=
  if x - (⌊x⌋ : ℚ) < 1/2 then ⌊x⌋
  else if 1/2 < x - (⌊x⌋ : ℚ) then ⌊x⌋ + 1
  else if ⌊x⌋ % 2 = 0 then ⌊x⌋ else ⌊x⌋ + 1

/-- Python's round(v, 2): round v * 100 half-to-even, divide by 100. -/
def round2 (x : ℚ) : ℚ := (roundHalfEven (x * 100) : ℚ) / 100

/-- Embeds class CalculateMealItem of src/main.py: name is a required str,
grams carries Field(gt=0) and the four nutrient fields Field(ge=0); those
pydantic bounds are enforced by validateItem below, not by this record. -/
structure CalculateMealItem where
  name : String
  grams : ℚ
  calories_per_100g : ℚ
  protein_per_100g : ℚ
  carbs_per_100g : ℚ
  fat_per_100g : ℚ
  deriving Repr, DecidableEq

/-- Embeds class CalculateMealPayload of src/main.py: items is a list of
CalculateMealItem and name an Optional[str] defaulting to None. -/
structure CalculateMealPayload where
  items : List CalculateMealItem
  name : Option String
  deriving Repr, DecidableEq

/-- The totals dictionary built by calc_totals in src/main.py. -/
structure Totals where
  calories : ℚ
  protein : ℚ
  carbs : ℚ
  fat : ℚ
  deriving Repr, DecidableEq

/-- One iteration of the for-loop in calc_totals (src/main.py lines 88-93):
factor = it.grams / 100.0 and each field accumulates field_per_100g * factor. -/
def calcStep (t : Totals) (it : CalculateMealItem) : Totals :=
  let factor := it.grams / 100
  { calories := t.calories + it.calories_per_100g * factor
    protein := t.protein + it.protein_per_100g * factor
    carbs := t.carbs + it.carbs_per_100g * factor
    fat := t.fat + it.fat_per_100g * factor }

/-- Embeds calc_totals of src/main.py (lines 81-94): totals start at zero,
the loop accumulates per item, and each total is rounded to 2 decimals. -/
def calc_totals (items : List CalculateMealItem) : Totals :=
  let t := items.foldl calcStep ⟨0, 0, 0, 0⟩
  ⟨round2 t.calories, round2 t.protein, round2 t.carbs, round2 t.fat⟩

/-- The mathematical per-field sum the spec describes: sum over the items of
field_per_100g * (grams / 100). -/
def sumField (f : CalculateMealItem → ℚ) (items : List CalculateMealItem) : ℚ :=
  (items.map (fun it => f it * (it.grams / 100))).sum

/-- An HTTPException as raised by the handlers in src/main.py. -/
structure HTTPError where
  status_code : ℕ
  detail : String
  deriving Repr, DecidableEq

/-- The JSON object returned by POST /api/meals/calculate. -/
structure CalculateResponse where
  name : Option String
  totals : Totals
  deriving Repr, DecidableEq

/-- Embeds calculate_meal of src/main.py (lines 118-123): empty items raise
HTTPException(400, "No items provided"); otherwise the response carries the
payload name unchanged and the computed totals.  No store access. -/
def calculate_meal (p : CalculateMealPayload) : Except HTTPError CalculateResponse :=
  if p.items.isEmpty then Except.error ⟨400, "No items provided"⟩
  else Except.ok ⟨p.name, calc_totals p.items⟩

/-- The meal_doc dictionary built by save_meal in src/main.py lines 131-138:
the submitted line items verbatim plus the four computed totals. -/
structure MealDoc where
  name : String
  items : List CalculateMealItem
  total_calories : ℚ
  total_protein : ℚ
  total_carbs : ℚ
  total_fat : ℚ
  deriving Repr, DecidableEq

/-- Python's `a or b` on an optional string: None and the empty string are
falsy, any other string is returned unchanged. -/
def pyStrOr (a : Option String) (b : String) : String :=
  match a with
  | none => b
  | some s => if s = "" then b else s

/-- The JSON object returned by POST /api/meals/save. -/
structure SaveResponse where
  id : ℕ
  totals : Totals
  deriving Repr, DecidableEq

/-- Embeds save_meal of src/main.py (lines 125-140).  The meal collection is
an explicit list of MealDoc; create_document is modelled as appending the
document and returning a fresh identifier (the previous length of the
collection).  Empty items raise HTTPException(400, "No items provided"). -/
def save_meal (p : CalculateMealPayload) (store : List MealDoc) :
    Except HTTPError (SaveResponse × List MealDoc) :=
  if p.items.isEmpty then Except.error ⟨400, "No items provided"⟩
  else
    let totals := calc_totals p.items
    let meal_doc : MealDoc :=
      ⟨pyStrOr p.name "Meal", p.items,
       totals.calories, totals.protein, totals.carbs, totals.fat⟩
    Except.ok (⟨store.length, totals⟩, store ++ [meal_doc])

/-- A raw JSON line item as it arrives on the wire, before pydantic
validation: every field may be absent.  Numeric JSON values are rationals. -/
structure RawMealItem where
  name : Option String
  grams : Option ℚ
  calories_per_100g : Option ℚ
  protein_per_100g : Option ℚ
  carbs_per_100g : Option ℚ
  fat_per_100g : Option ℚ
  deriving Repr, DecidableEq

/-- A raw JSON body for POST /api/foods before pydantic validation. -/
structure RawFoodPayload where
  name : Option String
  calories_per_100g : Option ℚ
  protein_per_100g : Option ℚ
  carbs_per_100g : Option ℚ
  fat_per_100g : Option ℚ
  deriving Repr, DecidableEq

/-- A pydantic validation failure: a required field is missing, or a field
value violates its declared bound (gt=0 or ge=0). -/
inductive ValidationError where
  | missingField (field : String)
  | outOfRange (field : String)
  deriving Repr, DecidableEq

/-- Pydantic validation of one CalculateMealItem (src/main.py lines 67-73):
name is a required str with no default, grams is required with gt=0, and the
four nutrient fields are required with ge=0.  Pydantic reports all failures
at once while this decoder stops at the first; request acceptance is
identical. -/
def validateItem (r : RawMealItem) : Except ValidationError CalculateMealItem :=
  match r.name, r.grams, r.calories_per_100g, r.protein_per_100g,
      r.carbs_per_100g, r.fat_per_100g with
  | some nm, some g, some c, some pr, some cb, some ft =>
    if g ≤ 0 then Except.error (ValidationError.outOfRange "grams")
    else if c < 0 then Except.error (ValidationError.outOfRange "calories_per_100g")
    else if pr < 0 then Except.error (ValidationError.outOfRange "protein_per_100g")
    else if cb < 0 then Except.error (ValidationError.outOfRange "carbs_per_100g")
    else if ft < 0 then Except.error (ValidationError.outOfRange "fat_per_100g")
    else Except.ok ⟨nm, g, c, pr, cb, ft⟩
  | none, _, _, _, _, _ => Except.error (ValidationError.missingField "name")
  | _, none, _, _, _, _ => Except.error (ValidationError.missingField "grams")
  | _, _, none, _, _, _ => Except.error (ValidationError.missingField "calories_per_100g")
  | _, _, _, none, _, _ => Except.error (ValidationError.missingField "protein_per_100g")
  | _, _, _, _, none, _ => Except.error (ValidationError.missingField "carbs_per_100g")
  | _, _, _, _, _, none => Except.error (ValidationError.missingField "fat_per_100g")

/-- Pydantic validation of the items list of CalculateMealPayload. -/
def validateItems : List RawMealItem → Except ValidationError (List CalculateMealItem)
  | [] => Except.ok []
  | r :: rs =>
    match validateItem r with
    | Except.error e => Except.error e
    | Except.ok it =>
      match validateItems rs with
      | Except.error e => Except.error e
      | Except.ok its => Except.ok (it :: its)

/-- Embeds class CreateFoodPayload of src/main.py (lines 60-65), which has
the same fields as schemas.Food: a required name and four ge=0 nutrient
fields. -/
structure CreateFoodPayload where
  name : String
  calories_per_100g : ℚ
  protein_per_100g : ℚ
  carbs_per_100g : ℚ
  fat_per_100g : ℚ
  deriving Repr, DecidableEq

/-- Pydantic validation of CreateFoodPayload (src/main.py lines 60-65): name
is a required str, the four nutrient fields are required with ge=0. -/
def validateFood (r : RawFoodPayload) : Except ValidationError CreateFoodPayload :=
  match r.name, r.calories_per_100g, r.protein_per_100g,
      r.carbs_per_100g, r.fat_per_100g with
  | some nm, some c, some pr, some cb, some ft =>
    if c < 0 then Except.error (ValidationError.outOfRange "calories_per_100g")
    else if pr < 0 then Except.error (ValidationError.outOfRange "protein_per_100g")
    else if cb < 0 then Except.error (ValidationError.outOfRange "carbs_per_100g")
    else if ft < 0 then Except.error (ValidationError.outOfRange "fat_per_100g")
    else Except.ok ⟨nm, c, pr, cb, ft⟩
  | none, _, _, _, _ => Except.error (ValidationError.missingField "name")
  | _, none, _, _, _ => Except.error (ValidationError.missingField "calories_per_100g")
  | _, _, none, _, _ => Except.error (ValidationError.missingField "protein_per_100g")
  | _, _, _, none, _ => Except.error (ValidationError.missingField "carbs_per_100g")
  | _, _, _, _, none => Except.error (ValidationError.missingField "fat_per_100g")

/-- Discriminates the ok constructor of Except. -/
def exceptOk {ε α : Type} : Except ε α → Bool
  | Except.ok _ => true
  | Except.error _ => false

/-- A raw line item that pydantic accepts: every field present, grams
strictly positive, nutrients non-negative. -/
def itemOk (r : RawMealItem) : Prop :=
  r.name.isSome = true ∧
  (∃ g, r.grams = some g ∧ 0 < g) ∧
  (∃ v, r.calories_per_100g = some v ∧ 0 ≤ v) ∧
  (∃ v, r.protein_per_100g = some v ∧ 0 ≤ v) ∧
  (∃ v, r.carbs_per_100g = some v ∧ 0 ≤ v) ∧
  (∃ v, r.fat_per_100g = some v ∧ 0 ≤ v)

/-- A raw food payload that pydantic accepts: every field present and the
nutrients non-negative. -/
def foodOk (r : RawFoodPayload) : Prop :=
  r.name.isSome = true ∧
  (∃ v, r.calories_per_100g = some v ∧ 0 ≤ v) ∧
  (∃ v, r.protein_per_100g = some v ∧ 0 ≤ v) ∧
  (∃ v, r.carbs_per_100g = some v ∧ 0 ≤ v) ∧
  (∃ v, r.fat_per_100g = some v ∧ 0 ≤ v)

/-- Acceptance of a meal request body (calculate or save): pydantic must
accept every raw item, and then the handler itself rejects an empty items
list with HTTPException 400 (src/main.py lines 120-121 and 127-128). -/
def mealRequestAccepted (rawItems : List RawMealItem) : Bool :=
  match validateItems rawItems with
  | Except.error _ => false
  | Except.ok items => !items.isEmpty

/-- Acceptance of a POST /api/foods body: pydantic validation only. -/
def foodRequestAccepted (r : RawFoodPayload) : Bool :=
  match validateFood r with
  | Except.error _ => false
  | Except.ok _ => true

/-- The store's native identifier type (MongoDB ObjectId), opaque to
callers; modelled as a wrapped number with a string rendering. -/
structure ObjectId where
  val : ℕ
  deriving Repr, DecidableEq

/-- Python str(ObjectId): the hex rendering; any injective rendering works
for the claims, so the decimal rendering is used. -/
def objectIdToString (o : ObjectId) : String := toString o.val

/-- A document as returned by get_documents: the store-assigned _id (absent
only if the store returned a document without one) plus its payload,
abstracted to the name field the endpoints filter on. -/
structure StoredDoc where
  oid : Option ObjectId
  name : String
  deriving Repr, DecidableEq

/-- A document after the id-conversion loop in list_foods / list_meals:
the _id slot now holds a string (or None when the document had no _id). -/
structure ApiDoc where
  id : Option String
  name : String
  deriving Repr, DecidableEq

/-- The id-conversion of one document (src/main.py line 113 and line 146):
d["_id"] = str(d["_id"]) if "_id" in d else None. -/
def convertDoc (d : StoredDoc) : ApiDoc :=
  { id := d.oid.map objectIdToString, name := d.name }

/-- Embeds list_foods of src/main.py (lines 104-114) downstream of the store
call: docs is whatever get_documents("food", filter, limit) returned, and
every document's ObjectId is converted to a string before being returned. -/
def list_foods (docs : List StoredDoc) : List ApiDoc := docs.map convertDoc

/-- Embeds list_meals of src/main.py (lines 142-147) downstream of the store
call: identical id conversion over the "meal" collection. -/
def list_meals (docs : List StoredDoc) : List ApiDoc := docs.map convertDoc

/-- Doubles every item's grams, leaving all other fields unchanged. -/
def doubleGrams (items : List CalculateMealItem) : List CalculateMealItem :=
  items.map (fun it => { it with grams := 2 * it.grams })

/-- The accumulation loop of calc_totals computes, on each field, the start
value plus the per-field sum of field_per_100g * grams / 100. -/
theorem foldl_calcStep_eq (items : List CalculateMealItem) (t : Totals) :
    items.foldl calcStep t =
      ⟨t.calories + sumField (fun it => it.calories_per_100g) items,
       t.protein + sumField (fun it => it.protein_per_100g) items,
       t.carbs + sumField (fun it => it.carbs_per_100g) items,
       t.fat + sumField (fun it => it.fat_per_100g) items⟩ := by
  induction items generalizing t with
  | nil => cases t; simp [sumField]
  | cons a l ih =>
    rw [List.foldl_cons, ih]
    simp only [sumField, List.map_cons, List.sum_cons, calcStep, Totals.mk.injEq]
    refine ⟨by ring, by ring, by ring, by ring⟩

/-- Closed form of calc_totals: each returned field is the rounded per-field
sum. -/
theorem calc_totals_eq (items : List CalculateMealItem) :
    calc_totals items =
      ⟨round2 (sumField (fun it => it.calories_per_100g) items),
       round2 (sumField (fun it => it.protein_per_100g) items),
       round2 (sumField (fun it => it.carbs_per_100g) items),
       round2 (sumField (fun it => it.fat_per_100g) items)⟩ := by
  rw [calc_totals, foldl_calcStep_eq]
  simp

/-- Round-half-to-even of a non-negative rational is non-negative. -/
theorem roundHalfEven_nonneg {x : ℚ} (h : 0 ≤ x) : 0 ≤ roundHalfEven x := by
  have h0 : (0 : ℤ) ≤ ⌊x⌋ := Int.floor_nonneg.mpr h
  rw [roundHalfEven]
  split_ifs <;> omega

/-- Rounding a non-negative rational to 2 decimals is non-negative. -/
theorem round2_nonneg {x : ℚ} (h : 0 ≤ x) : 0 ≤ round2 x := by
  have h1 : (0 : ℤ) ≤ roundHalfEven (x * 100) :=
    roundHalfEven_nonneg (by positivity)
  have h2 : (0 : ℚ) ≤ (roundHalfEven (x * 100) : ℚ) := by exact_mod_cast h1
  rw [round2]
  positivity

/-- Round-half-to-even moves a rational by at most one half. -/
theorem abs_roundHalfEven_sub_le (x : ℚ) : |(roundHalfEven x : ℚ) - x| ≤ 1/2 := by
  have hle : (⌊x⌋ : ℚ) ≤ x := Int.floor_le x
  have hlt : x < ⌊x⌋ + 1 := Int.lt_floor_add_one x
  rw [roundHalfEven]
  split_ifs with h1 h2 h3 <;>
    · rw [abs_le]
      constructor <;> push_cast <;> linarith

/-- Rounding to 2 decimals moves a rational by at most 1/200. -/
theorem abs_round2_sub_le (x : ℚ) : |round2 x - x| ≤ 1/200 := by
  have h := abs_roundHalfEven_sub_le (x * 100)
  have heq : round2 x - x = ((roundHalfEven (x * 100) : ℚ) - x * 100) / 100 := by
    rw [round2]; ring
  rw [heq, abs_div]
  rw [abs_of_pos (by norm_num : (0:ℚ) < 100)]
  linarith

/-- The rounding discrepancy between round2 of a doubled sum and the double
of a rounded sum is at most 3/200. -/
theorem abs_round2_double (s : ℚ) : |round2 (2 * s) - 2 * round2 s| ≤ 3/200 := by
  have h1 := abs_round2_sub_le (2 * s)
  have h2 := abs_round2_sub_le s
  have heq : round2 (2 * s) - 2 * round2 s =
      (round2 (2 * s) - 2 * s) + (-2) * (round2 s - s) := by ring
  rw [heq]
  have h3 := abs_add (round2 (2 * s) - 2 * s) ((-2) * (round2 s - s))
  rw [abs_mul] at h3
  have h4 : |(-2 : ℚ)| = 2 := by norm_num
  rw [h4] at h3
  linarith

/-- The per-field sum over items with non-negative grams and a non-negative
field is non-negative. -/
theorem sumField_nonneg (f : CalculateMealItem → ℚ) (items : List CalculateMealItem)
    (hg : ∀ it ∈ items, 0 ≤ it.grams) (hf : ∀ it ∈ items, 0 ≤ f it) :
    0 ≤ sumField f items := by
  apply List.sum_nonneg
  intro x hx
  obtain ⟨it, hit, rfl⟩ := List.mem_map.mp hx
  have hg' : 0 ≤ it.grams := hg it hit
  exact mul_nonneg (hf it hit) (by positivity)

/-- The per-field sum is invariant under permutation of the items. -/
theorem sumField_perm (f : CalculateMealItem → ℚ) {l l' : List CalculateMealItem}
    (h : l.Perm l') : sumField f l = sumField f l' :=
  (h.map (fun it => f it * (it.grams / 100))).sum_eq

/-- Doubling every grams value doubles the per-field sum, for any field that
does not depend on grams. -/
theorem sumField_doubleGrams (f : CalculateMealItem → ℚ)
    (hf : ∀ (it : CalculateMealItem) (g : ℚ), f { it with grams := g } = f it)
    (items : List CalculateMealItem) :
    sumField f (doubleGrams items) = 2 * sumField f items := by
  induction items with
  | nil => simp [sumField, doubleGrams]
  | cons a l ih =>
    have ha : f { a with grams := 2 * a.grams } = f a := hf a (2 * a.grams)
    have hstep : sumField f (doubleGrams (a :: l)) =
        f { a with grams := 2 * a.grams } * (2 * a.grams / 100) +
          sumField f (doubleGrams l) := by
      simp [sumField, doubleGrams]
    have hstep2 : sumField f (a :: l) = f a * (a.grams / 100) + sumField f l := by
      simp [sumField]
    rw [hstep, hstep2, ha, ih]
    ring

/-- Pydantic accepts one line item exactly when itemOk holds. -/
theorem validateItem_ok_iff (r : RawMealItem) :
    exceptOk (validateItem r) = true ↔ itemOk r := by
  obtain ⟨n, g, c, pr, cb, ft⟩ := r
  rw [validateItem, itemOk]
  cases n <;> cases g <;> cases c <;> cases pr <;> cases cb <;> cases ft <;>
    simp [exceptOk] <;> split_ifs <;> simp_all [exceptOk]

/-- Pydantic accepts a food payload exactly when foodOk holds. -/
theorem validateFood_ok_iff (r : RawFoodPayload) :
    foodRequestAccepted r = true ↔ foodOk r := by
  obtain ⟨n, c, pr, cb, ft⟩ := r
  rw [foodRequestAccepted, validateFood, foodOk]
  cases n <;> cases c <;> cases pr <;> cases cb <;> cases ft <;>
    simp <;> split_ifs <;> simp_all

/-- Computation rule: exceptOk of an ok value is true. -/
theorem exceptOk_ok {ε α : Type} (a : α) : exceptOk (Except.ok a : Except ε α) = true := rfl

/-- Computation rule: exceptOk of an error is false. -/
theorem exceptOk_error {ε α : Type} (e : ε) :
    exceptOk (Except.error e : Except ε α) = false := rfl

/-- Validating a list of items succeeds exactly when every item validates. -/
theorem validateItems_ok_eq (rs : List RawMealItem) :
    exceptOk (validateItems rs) = rs.all (fun r => exceptOk (validateItem r)) := by
  induction rs with
  | nil => rfl
  | cons r rs ih =>
    rw [validateItems, List.all_cons]
    cases h : validateItem r with
    | error e =>
      simp only [exceptOk_error, Bool.false_and]
    | ok it =>
      simp only [exceptOk_ok, Bool.true_and]
      cases h2 : validateItems rs with
      | error e =>
        rw [h2] at ih
        rw [← ih]
      | ok its =>
        rw [h2] at ih
        rw [← ih]
        rfl

/-- Successful validation preserves the number of items. -/
theorem validateItems_length (rs : List RawMealItem) (items : List CalculateMealItem)
    (h : validateItems rs = Except.ok items) : items.length = rs.length := by
  induction rs generalizing items with
  | nil =>
    rw [validateItems] at h
    cases h
    rfl
  | cons r rs ih =>
    rw [validateItems] at h
    cases h1 : validateItem r with
    | error e => rw [h1] at h; cases h
    | ok it =>
      rw [h1] at h
      cases h2 : validateItems rs with
      | error e => rw [h2] at h; cases h
      | ok its =>
        rw [h2] at h
        cases h
        simp [List.length_cons, ih its h2]

/-- A meal request is accepted exactly when its raw items list is non-empty
and every raw item validates. -/
theorem mealRequestAccepted_iff (raw : List RawMealItem) :
    mealRequestAccepted raw = true ↔ raw ≠ [] ∧ ∀ r ∈ raw, itemOk r := by
  have key : mealRequestAccepted raw = true ↔
      raw ≠ [] ∧ ∀ r ∈ raw, exceptOk (validateItem r) = true := by
    rw [mealRequestAccepted]
    have hall := validateItems_ok_eq raw
    cases h : validateItems raw with
    | error e =>
      rw [h] at hall
      rw [exceptOk_error] at hall
      constructor
      · intro hc; exact absurd hc (by simp)
      · rintro ⟨-, h2⟩
        exfalso
        have htrue : raw.all (fun r => exceptOk (validateItem r)) = true :=
          List.all_eq_true.mpr h2
        rw [← hall] at htrue
        cases htrue
    | ok items =>
      rw [h] at hall
      rw [exceptOk_ok] at hall
      have hlen := validateItems_length raw items h
      constructor
      · intro hne
        refine ⟨?_, fun r hr => List.all_eq_true.mp hall.symm r hr⟩
        intro hraw
        subst hraw
        simp at hlen
        simp [List.isEmpty_eq_true, hlen] at hne
      · rintro ⟨hne, -⟩
        have : items ≠ [] := by
          intro hitems
          apply hne
          subst hitems
          simp at hlen
          exact List.length_eq_zero.mp hlen.symm
        simp [List.isEmpty_eq_true, this]
  rw [key]
  constructor
  · rintro ⟨h1, h2⟩
    exact ⟨h1, fun r hr => (validateItem_ok_iff r).mp (h2 r hr)⟩
  · rintro ⟨h1, h2⟩
    exact ⟨h1, fun r hr => (validateItem_ok_iff r).mpr (h2 r hr)⟩

/-- C1: for every non-empty list of line items, each with grams > 0 and the
four nutrient fields ≥ 0, calc_totals returns a totals record in which each
field equals the sum over the items of field_per_100g * (grams / 100),
accumulated from zero and rounded to 2 decimal places, and every returned
total is non-negative. -/
theorem claim1_totals_sum_rounded_nonneg (items : List CalculateMealItem)
    (hne : items ≠ [])
    (hg : ∀ it ∈ items, 0 < it.grams)
    (hcal : ∀ it ∈ items, 0 ≤ it.calories_per_100g)
    (hpro : ∀ it ∈ items, 0 ≤ it.protein_per_100g)
    (hcarb : ∀ it ∈ items, 0 ≤ it.carbs_per_100g)
    (hfat : ∀ it ∈ items, 0 ≤ it.fat_per_100g) :
    calc_totals items =
      ⟨round2 (sumField (fun it => it.calories_per_100g) items),
       round2 (sumField (fun it => it.protein_per_100g) items),
       round2 (sumField (fun it => it.carbs_per_100g) items),
       round2 (sumField (fun it => it.fat_per_100g) items)⟩ ∧
    0 ≤ (calc_totals items).calories ∧ 0 ≤ (calc_totals items).protein ∧
    0 ≤ (calc_totals items).carbs ∧ 0 ≤ (calc_totals items).fat := by
  have hg' : ∀ it ∈ items, 0 ≤ it.grams := fun it hit => le_of_lt (hg it hit)
  refine ⟨calc_totals_eq items, ?_, ?_, ?_, ?_⟩ <;> rw [calc_totals_eq]
  · exact round2_nonneg (sumField_nonneg _ items hg' hcal)
  · exact round2_nonneg (sumField_nonneg _ items hg' hpro)
  · exact round2_nonneg (sumField_nonneg _ items hg' hcarb)
  · exact round2_nonneg (sumField_nonneg _ items hg' hfat)

/-- Witness for C1 at the spec's Rice example. -/
theorem claim1_witness :
    calc_totals [⟨"Rice", 200, 130, 27/10, 28, 3/10⟩] =
      ⟨round2 (sumField (fun it => it.calories_per_100g) [⟨"Rice", 200, 130, 27/10, 28, 3/10⟩]),
       round2 (sumField (fun it => it.protein_per_100g) [⟨"Rice", 200, 130, 27/10, 28, 3/10⟩]),
       round2 (sumField (fun it => it.carbs_per_100g) [⟨"Rice", 200, 130, 27/10, 28, 3/10⟩]),
       round2 (sumField (fun it => it.fat_per_100g) [⟨"Rice", 200, 130, 27/10, 28, 3/10⟩])⟩ ∧
    0 ≤ (calc_totals [⟨"Rice", 200, 130, 27/10, 28, 3/10⟩]).calories ∧
    0 ≤ (calc_totals [⟨"Rice", 200, 130, 27/10, 28, 3/10⟩]).protein ∧
    0 ≤ (calc_totals [⟨"Rice", 200, 130, 27/10, 28, 3/10⟩]).carbs ∧
    0 ≤ (calc_totals [⟨"Rice", 200, 130, 27/10, 28, 3/10⟩]).fat :=
  claim1_totals_sum_rounded_nonneg _ (by simp)
    (by intro it hit; rw [List.mem_singleton] at hit; subst hit; norm_num)
    (by intro it hit; rw [List.mem_singleton] at hit; subst hit; norm_num)
    (by intro it hit; rw [List.mem_singleton] at hit; subst hit; norm_num)
    (by intro it hit; rw [List.mem_singleton] at hit; subst hit; norm_num)
    (by intro it hit; rw [List.mem_singleton] at hit; subst hit; norm_num)

/-- C2: a calculate or save request whose items list is empty is rejected
with HTTP status 400 by both endpoints; the error carries no totals, no
aggregation result is produced, and save appends nothing to the store. -/
theorem claim2_empty_items_rejected (p : CalculateMealPayload) (store : List MealDoc)
    (h : p.items = []) :
    calculate_meal p = Except.error ⟨400, "No items provided"⟩ ∧
    save_meal p store = Except.error ⟨400, "No items provided"⟩ := by
  constructor
  · rw [calculate_meal, h]
    rfl
  · rw [save_meal, h]
    rfl

/-- Witness for C2 at a concrete empty-items payload. -/
theorem claim2_witness :
    calculate_meal ⟨[], some "Lunch"⟩ = Except.error ⟨400, "No items provided"⟩ ∧
    save_meal ⟨[], some "Lunch"⟩ [] = Except.error ⟨400, "No items provided"⟩ :=
  claim2_empty_items_rejected ⟨[], some "Lunch"⟩ [] rfl

/-- C5: aggregating any permutation of an item list produces totals
identical to aggregating the original list. -/
theorem claim5_perm_invariant (l l' : List CalculateMealItem) (h : l.Perm l') :
    calc_totals l = calc_totals l' := by
  rw [calc_totals_eq, calc_totals_eq,
    sumField_perm (fun it => it.calories_per_100g) h,
    sumField_perm (fun it => it.protein_per_100g) h,
    sumField_perm (fun it => it.carbs_per_100g) h,
    sumField_perm (fun it => it.fat_per_100g) h]

/-- Witness for C5 at a concrete two-item swap. -/
theorem claim5_witness :
    calc_totals [⟨"A", 50, 10, 1, 2, 3⟩, ⟨"B", 150, 20, 4, 5, 6⟩] =
      calc_totals [⟨"B", 150, 20, 4, 5, 6⟩, ⟨"A", 50, 10, 1, 2, 3⟩] :=
  claim5_perm_invariant _ _ (List.Perm.swap _ _ _)

/-- C6: aggregating a single line item with grams = 100 yields totals equal
to that item's four per-100g values, each rounded to 2 decimal places. -/
theorem claim6_single_100g (it : CalculateMealItem) (h : it.grams = 100) :
    calc_totals [it] =
      ⟨round2 it.calories_per_100g, round2 it.protein_per_100g,
       round2 it.carbs_per_100g, round2 it.fat_per_100g⟩ := by
  rw [calc_totals_eq]
  norm_num [sumField, h]

/-- Witness for C6 at a concrete grams = 100 item. -/
theorem claim6_witness :
    calc_totals [⟨"Egg", 100, 155, 13, 11/10, 11⟩] =
      ⟨round2 155, round2 13, round2 (11/10), round2 11⟩ :=
  claim6_single_100g ⟨"Egg", 100, 155, 13, 11/10, 11⟩ rfl

/-- C7: doubling every item's grams (all other fields unchanged) produces
totals that are double the original totals, within the tolerance of the
2-decimal rounding step (at most 3/200 per field). -/
theorem claim7_double_grams (items : List CalculateMealItem)
    (hne : items ≠ [])
    (hg : ∀ it ∈ items, 0 < it.grams)
    (hcal : ∀ it ∈ items, 0 ≤ it.calories_per_100g)
    (hpro : ∀ it ∈ items, 0 ≤ it.protein_per_100g)
    (hcarb : ∀ it ∈ items, 0 ≤ it.carbs_per_100g)
    (hfat : ∀ it ∈ items, 0 ≤ it.fat_per_100g) :
    |(calc_totals (doubleGrams items)).calories - 2 * (calc_totals items).calories| ≤ 3/200 ∧
    |(calc_totals (doubleGrams items)).protein - 2 * (calc_totals items).protein| ≤ 3/200 ∧
    |(calc_totals (doubleGrams items)).carbs - 2 * (calc_totals items).carbs| ≤ 3/200 ∧
    |(calc_totals (doubleGrams items)).fat - 2 * (calc_totals items).fat| ≤ 3/200 := by
  rw [calc_totals_eq items, calc_totals_eq (doubleGrams items)]
  refine ⟨?_, ?_, ?_, ?_⟩
  · dsimp only
    rw [sumField_doubleGrams (fun it => it.calories_per_100g) (fun it g => rfl) items]
    exact abs_round2_double _
  · dsimp only
    rw [sumField_doubleGrams (fun it => it.protein_per_100g) (fun it g => rfl) items]
    exact abs_round2_double _
  · dsimp only
    rw [sumField_doubleGrams (fun it => it.carbs_per_100g) (fun it g => rfl) items]
    exact abs_round2_double _
  · dsimp only
    rw [sumField_doubleGrams (fun it => it.fat_per_100g) (fun it g => rfl) items]
    exact abs_round2_double _

/-- Witness for C7 at the spec's Rice example. -/
theorem claim7_witness :
    |(calc_totals (doubleGrams [⟨"Rice", 200, 130, 27/10, 28, 3/10⟩])).calories -
        2 * (calc_totals [⟨"Rice", 200, 130, 27/10, 28, 3/10⟩]).calories| ≤ 3/200 ∧
    |(calc_totals (doubleGrams [⟨"Rice", 200, 130, 27/10, 28, 3/10⟩])).protein -
        2 * (calc_totals [⟨"Rice", 200, 130, 27/10, 28, 3/10⟩]).protein| ≤ 3/200 ∧
    |(calc_totals (doubleGrams [⟨"Rice", 200, 130, 27/10, 28, 3/10⟩])).carbs -
        2 * (calc_totals [⟨"Rice", 200, 130, 27/10, 28, 3/10⟩]).carbs| ≤ 3/200 ∧
    |(calc_totals (doubleGrams [⟨"Rice", 200, 130, 27/10, 28, 3/10⟩])).fat -
        2 * (calc_totals [⟨"Rice", 200, 130, 27/10, 28, 3/10⟩]).fat| ≤ 3/200 :=
  claim7_double_grams _ (by simp)
    (by intro it hit; rw [List.mem_singleton] at hit; subst hit; norm_num)
    (by intro it hit; rw [List.mem_singleton] at hit; subst hit; norm_num)
    (by intro it hit; rw [List.mem_singleton] at hit; subst hit; norm_num)
    (by intro it hit; rw [List.mem_singleton] at hit; subst hit; norm_num)
    (by intro it hit; rw [List.mem_singleton] at hit; subst hit; norm_num)

/-- C8: every document returned by GET /api/foods and GET /api/meals carries
its identifier as a plain string whenever the store supplied one, the
identifier exposed to the caller is exactly the string rendering of the
store's native identifier, and the returned record type (ApiDoc) holds no
ObjectId at all, so the native type is never leaked. -/
theorem claim8_string_ids (docs : List StoredDoc)
    (h : ∀ d ∈ docs, d.oid.isSome = true) :
    (∀ a ∈ list_foods docs, ∃ s : String, a.id = some s) ∧
    (∀ a ∈ list_meals docs, ∃ s : String, a.id = some s) ∧
    (∀ d ∈ docs, (convertDoc d).id = d.oid.map objectIdToString) := by
  refine ⟨?_, ?_, fun d _ => rfl⟩
  · intro a ha
    rw [list_foods] at ha
    obtain ⟨d, hd, rfl⟩ := List.mem_map.mp ha
    obtain ⟨o, ho⟩ := Option.isSome_iff_exists.mp (h d hd)
    exact ⟨objectIdToString o, by rw [convertDoc]; simp [ho]⟩
  · intro a ha
    rw [list_meals] at ha
    obtain ⟨d, hd, rfl⟩ := List.mem_map.mp ha
    obtain ⟨o, ho⟩ := Option.isSome_iff_exists.mp (h d hd)
    exact ⟨objectIdToString o, by rw [convertDoc]; simp [ho]⟩

/-- Witness for C8 at a one-document store result. -/
theorem claim8_witness :
    (∀ a ∈ list_foods [⟨some ⟨7⟩, "Oats"⟩], ∃ s : String, a.id = some s) ∧
    (∀ a ∈ list_meals [⟨some ⟨7⟩, "Oats"⟩], ∃ s : String, a.id = some s) ∧
    (∀ d ∈ [(⟨some ⟨7⟩, "Oats"⟩ : StoredDoc)],
      (convertDoc d).id = d.oid.map objectIdToString) :=
  claim8_string_ids [⟨some ⟨7⟩, "Oats"⟩]
    (by intro d hd; rw [List.mem_singleton] at hd; subst hd; rfl)

/-- C9: a save request whose name is present but equal to the empty string
persists the meal under the default name "Meal": the default substitution
applies to any falsy name, not only an absent one. -/
theorem claim9_empty_name_defaults (p : CalculateMealPayload) (store : List MealDoc)
    (hname : p.name = some "") (hne : p.items ≠ []) :
    ∃ resp doc, save_meal p store = Except.ok (resp, store ++ [doc]) ∧
      doc.name = "Meal" := by
  refine ⟨⟨store.length, calc_totals p.items⟩,
    ⟨pyStrOr p.name "Meal", p.items, (calc_totals p.items).calories,
     (calc_totals p.items).protein, (calc_totals p.items).carbs,
     (calc_totals p.items).fat⟩, ?_, ?_⟩
  · rw [save_meal]
    cases hi : p.items with
    | nil => exact absurd hi hne
    | cons a l => rfl
  · rw [hname]
    rfl

/-- Witness for C9 at a concrete empty-string-named payload. -/
theorem claim9_witness :
    ∃ resp doc,
      save_meal ⟨[⟨"Rice", 200, 130, 27/10, 28, 3/10⟩], some ""⟩ [] =
        Except.ok (resp, [] ++ [doc]) ∧ doc.name = "Meal" :=
  claim9_empty_name_defaults ⟨[⟨"Rice", 200, 130, 27/10, 28, 3/10⟩], some ""⟩ []
    rfl (by simp)

/-- C10: for every valid calculate request, POST /api/meals/calculate
returns the submitted name unchanged (so an absent name comes back as null);
the "Meal" default never applies on the calculate path. -/
theorem claim10_calculate_passthrough (p : CalculateMealPayload)
    (hne : p.items ≠ []) :
    calculate_meal p = Except.ok ⟨p.name, calc_totals p.items⟩ := by
  rw [calculate_meal]
  cases hi : p.items with
  | nil => exact absurd hi hne
  | cons a l => rfl

/-- Witness for C10 at a concrete nameless payload: the response name is
null, not "Meal". -/
theorem claim10_witness :
    calculate_meal ⟨[⟨"Rice", 200, 130, 27/10, 28, 3/10⟩], none⟩ =
      Except.ok ⟨none, calc_totals [⟨"Rice", 200, 130, 27/10, 28, 3/10⟩]⟩ :=
  claim10_calculate_passthrough ⟨[⟨"Rice", 200, 130, 27/10, 28, 3/10⟩], none⟩
    (by simp)

/-- C3 counterexample: a line item whose name field is absent but whose
grams and nutrients are valid is rejected by validation (CalculateMealItem
declares name as a required str), so the request is refused — contradicting
the claim that such an item is accepted. -/
theorem claim3_counterexample :
    validateItem ⟨none, some 100, some 0, some 0, some 0, some 0⟩ =
      Except.error (ValidationError.missingField "name") ∧
    mealRequestAccepted [⟨none, some 100, some 0, some 0, some 0, some 0⟩] = false := by
  constructor
  · rfl
  · rfl

/-- C3 (amended): a food request is accepted exactly when every field is
present and every nutrient is non-negative, and a meal request is accepted
exactly when its items list is non-empty and every line item has every field
present — including name, which CalculateMealItem requires — with grams > 0
and nutrients ≥ 0.  Equivalently, a request is rejected with a validation
error iff it omits a required field (a line item's absent name included),
contains a negative nutrient, a non-positive grams, or an empty item list. -/
theorem claim3_validation_iff :
    (∀ r : RawFoodPayload, foodRequestAccepted r = true ↔ foodOk r) ∧
    (∀ raw : List RawMealItem,
      mealRequestAccepted raw = true ↔ raw ≠ [] ∧ ∀ r ∈ raw, itemOk r) :=
  ⟨validateFood_ok_iff, mealRequestAccepted_iff⟩

/-- C4 counterexample: a valid save request whose name field is present but
equal to the empty string is persisted under the name "Meal", not under the
submitted name "" — so the stored name is not always the submitted name when
a name is present. -/
theorem claim4_counterexample :
    save_meal ⟨[⟨"Rice", 200, 130, 27/10, 28, 3/10⟩], some ""⟩ [] =
      Except.ok (⟨0, ⟨260, 27/5, 56, 3/5⟩⟩,
        [⟨"Meal", [⟨"Rice", 200, 130, 27/10, 28, 3/10⟩], 260, 27/5, 56, 3/5⟩]) ∧
    ("" : String) ≠ "Meal" := by
  constructor
  · norm_num [save_meal, pyStrOr, calc_totals, calcStep, round2, roundHalfEven,
      MealDoc.mk.injEq, SaveResponse.mk.injEq, Totals.mk.injEq]
  · simp

/-- C4 (amended): every valid save request (non-empty items, grams > 0,
nutrients ≥ 0) persists exactly one Meal document, appended to the store,
whose name is the submitted name when that is a non-empty string and "Meal"
when the name is absent or empty, whose items are the submitted line items
verbatim and in order, and whose four stored totals are exactly the four
totals returned in the response. -/
theorem claim4_save_persists (p : CalculateMealPayload) (store : List MealDoc)
    (hne : p.items ≠ [])
    (hg : ∀ it ∈ p.items, 0 < it.grams)
    (hcal : ∀ it ∈ p.items, 0 ≤ it.calories_per_100g)
    (hpro : ∀ it ∈ p.items, 0 ≤ it.protein_per_100g)
    (hcarb : ∀ it ∈ p.items, 0 ≤ it.carbs_per_100g)
    (hfat : ∀ it ∈ p.items, 0 ≤ it.fat_per_100g) :
    save_meal p store =
      Except.ok (⟨store.length, calc_totals p.items⟩,
        store ++ [⟨pyStrOr p.name "Meal", p.items,
          (calc_totals p.items).calories, (calc_totals p.items).protein,
          (calc_totals p.items).carbs, (calc_totals p.items).fat⟩]) := by
  rw [save_meal]
  cases hi : p.items with
  | nil => exact absurd hi hne
  | cons a l => rfl

/-- Witness for C4 at a concrete named one-item save request. -/
theorem claim4_witness :
    save_meal ⟨[⟨"Rice", 200, 130, 27/10, 28, 3/10⟩], some "Dinner"⟩ [] =
      Except.ok
        (⟨List.length ([] : List MealDoc), calc_totals [⟨"Rice", 200, 130, 27/10, 28, 3/10⟩]⟩,
         ([] : List MealDoc) ++ [⟨pyStrOr (some "Dinner") "Meal", [⟨"Rice", 200, 130, 27/10, 28, 3/10⟩],
           (calc_totals [⟨"Rice", 200, 130, 27/10, 28, 3/10⟩]).calories,
           (calc_totals [⟨"Rice", 200, 130, 27/10, 28, 3/10⟩]).protein,
           (calc_totals [⟨"Rice", 200, 130, 27/10, 28, 3/10⟩]).carbs,
           (calc_totals [⟨"Rice", 200, 130, 27/10, 28, 3/10⟩]).fat⟩]) :=
  claim4_save_persists ⟨[⟨"Rice", 200, 130, 27/10, 28, 3/10⟩], some "Dinner"⟩ []
    (by simp)
    (by intro it hit; rw [List.mem_singleton] at hit; subst hit; norm_num)
    (by intro it hit; rw [List.mem_singleton] at hit; subst hit; norm_num)
    (by intro it hit; rw [List.mem_singleton] at hit; subst hit; norm_num)
    (by intro it hit; rw [List.mem_singleton] at hit; subst hit; norm_num)
    (by intro it hit; rw [List.mem_singleton] at hit; subst hit; norm_num)

